import Mathlib

/-
Shallow embedding of the esp-openthread platform adaptation layer
(esp-openthread/src/lib.rs).

Machine integers are modelled as Nat (u8/u16/u32/u64 values) or Int where
signedness matters; byte buffers are lists of Nat byte values (0..255).
The native engine, radio and timer are external collaborators; where their
behaviour matters it is passed in as an explicit oracle argument (status
codes, due flags, queued frames) and the value handed to them is the result
of the embedded function.
-/

namespace EspOpenThread

/-- Byte buffers ([u8] / [i8]; the i8 network-name buffer is bit-identical
to its u8 transmute, so both sides are modelled as Nat byte values). -/
abbrev Bytes := List Nat

/-- The single error kind (`enum Error { InternalError(u32) }`). -/
inductive Error where
  | InternalError : Nat → Error
deriving DecidableEq, Repr

/-- The `checked!` macro: nonzero native status becomes `InternalError`. -/
def checked (v : Nat) : Except Error Unit :=
  if v ≠ 0 then Except.error (Error.InternalError v) else Except.ok ()

/-- The fixed success status `otError_OT_ERROR_NONE`. -/
def OT_ERROR_NONE : Nat := 0

/-- Thread Dataset timestamp (struct ThreadTimestamp). -/
structure ThreadTimestamp where
  seconds : Nat
  ticks : Nat
  authoritative : Bool
deriving DecidableEq, Repr

/-- Security Policy (struct SecurityPolicy): a u16 rotation time, nine
independent boolean sub-flags and a numeric version threshold. -/
structure SecurityPolicy where
  rotation_time : Nat
  autonomous_enrollment_enabled : Bool
  commercial_commissioning_enabled : Bool
  external_commissioning_enabled : Bool
  native_commissioning_enabled : Bool
  network_key_provisioning_enabled : Bool
  non_ccm_routers_enabled : Bool
  obtain_network_key_enabled : Bool
  routers_enabled : Bool
  toble_link_enabled : Bool
  version_threshold_for_routing : Nat
deriving DecidableEq, Repr

/-- Active or Pending Operational Dataset (struct OperationalDataset).
The source field `mesh_local_prefix` is rendered here as `mesh_local_pfx`
(same meaning; only the identifier is shortened). The network name is a
heapless::String<16>, i.e. a UTF-8 byte buffer of length at most 16. -/
structure OperationalDataset where
  active_timestamp : Option ThreadTimestamp
  pending_timestamp : Option ThreadTimestamp
  network_key : Option Bytes
  network_name : Option Bytes
  extended_pan_id : Option Bytes
  mesh_local_pfx : Option Bytes
  delay : Option Nat
  pan_id : Option Nat
  channel : Option Nat
  pskc : Option Bytes
  security_policy : Option SecurityPolicy
  channel_mask : Option Nat
deriving DecidableEq, Repr

/-- The derived `Default` of OperationalDataset: every optional field None. -/
def OperationalDataset.default : OperationalDataset :=
  ⟨none, none, none, none, none, none, none, none, none, none, none, none⟩

/-- Native otTimestamp. -/
structure otTimestamp where
  mSeconds : Nat
  mTicks : Nat
  mAuthoritative : Bool
deriving DecidableEq, Repr

/-- Modelled from the spec: the packed bit-field of the engine's native
otSecurityPolicy. The bindgen-generated crate (esp-openthread-sys) is not
part of the examined source; per the spec the ten-odd sub-fields are
"packed into a bit-field-style layout in a fixed order" matching the
engine's native declaration order. The record fields below are listed
in that native order; the generated positional constructor
(`new_bitfield_1`) fills them in this order and each generated named read
accessor returns the same-named field. -/
structure otSecurityPolicyBitfield where
  obtainNetworkKey : Bool
  nativeCommissioning : Bool
  routers : Bool
  externalCommissioning : Bool
  commercialCommissioning : Bool
  autonomousEnrollment : Bool
  networkKeyProvisioning : Bool
  tobleLink : Bool
  nonCcmRouters : Bool
  versionThreshold : Nat
deriving DecidableEq, Repr

/-- Native otSecurityPolicy: rotation time plus the packed bit-field. -/
structure otSecurityPolicy where
  mRotationTime : Nat
  bitfield_1 : otSecurityPolicyBitfield
deriving DecidableEq, Repr

/-- Modelled from the spec: bindgen's positional `new_bitfield_1`
constructor for otSecurityPolicy, parameters in native declaration order. -/
def otSecurityPolicy.new_bitfield_1
    (obtainNetworkKey nativeCommissioning routers externalCommissioning
     commercialCommissioning autonomousEnrollment networkKeyProvisioning
     tobleLink nonCcmRouters : Bool) (versionThreshold : Nat) :
    otSecurityPolicyBitfield :=
  ⟨obtainNetworkKey, nativeCommissioning, routers, externalCommissioning,
   commercialCommissioning, autonomousEnrollment, networkKeyProvisioning,
   tobleLink, nonCcmRouters, versionThreshold⟩

/-- Generated read accessor mObtainNetworkKeyEnabled. -/
def otSecurityPolicy.mObtainNetworkKeyEnabled (s : otSecurityPolicy) : Bool :=
  s.bitfield_1.obtainNetworkKey

/-- Generated read accessor mNativeCommissioningEnabled. -/
def otSecurityPolicy.mNativeCommissioningEnabled (s : otSecurityPolicy) : Bool :=
  s.bitfield_1.nativeCommissioning

/-- Generated read accessor mRoutersEnabled. -/
def otSecurityPolicy.mRoutersEnabled (s : otSecurityPolicy) : Bool :=
  s.bitfield_1.routers

/-- Generated read accessor mExternalCommissioningEnabled. -/
def otSecurityPolicy.mExternalCommissioningEnabled (s : otSecurityPolicy) : Bool :=
  s.bitfield_1.externalCommissioning

/-- Generated read accessor mCommercialCommissioningEnabled. -/
def otSecurityPolicy.mCommercialCommissioningEnabled (s : otSecurityPolicy) : Bool :=
  s.bitfield_1.commercialCommissioning

/-- Generated read accessor mAutonomousEnrollmentEnabled. -/
def otSecurityPolicy.mAutonomousEnrollmentEnabled (s : otSecurityPolicy) : Bool :=
  s.bitfield_1.autonomousEnrollment

/-- Generated read accessor mNetworkKeyProvisioningEnabled. -/
def otSecurityPolicy.mNetworkKeyProvisioningEnabled (s : otSecurityPolicy) : Bool :=
  s.bitfield_1.networkKeyProvisioning

/-- Generated read accessor mTobleLinkEnabled. -/
def otSecurityPolicy.mTobleLinkEnabled (s : otSecurityPolicy) : Bool :=
  s.bitfield_1.tobleLink

/-- Generated read accessor mNonCcmRoutersEnabled. -/
def otSecurityPolicy.mNonCcmRoutersEnabled (s : otSecurityPolicy) : Bool :=
  s.bitfield_1.nonCcmRouters

/-- Generated read accessor mVersionThresholdForRouting. -/
def otSecurityPolicy.mVersionThresholdForRouting (s : otSecurityPolicy) : Nat :=
  s.bitfield_1.versionThreshold

/-- Modelled from the spec: the packed presence bit-field of the engine's
native otOperationalDatasetComponents (one presence bit per dataset field,
in native declaration order), again a bindgen-generated layout outside the
examined source. -/
structure otOperationalDatasetComponentsBitfield where
  activeTimestampPresent : Bool
  pendingTimestampPresent : Bool
  networkKeyPresent : Bool
  networkNamePresent : Bool
  extendedPanIdPresent : Bool
  meshLocalPfxPresent : Bool
  delayPresent : Bool
  panIdPresent : Bool
  channelPresent : Bool
  pskcPresent : Bool
  securityPolicyPresent : Bool
  channelMaskPresent : Bool
deriving DecidableEq, Repr

/-- Native otOperationalDatasetComponents (presence bitmap). -/
structure otOperationalDatasetComponents where
  bitfield_1 : otOperationalDatasetComponentsBitfield
deriving DecidableEq, Repr

/-- Modelled from the spec: bindgen's positional `new_bitfield_1` for the
presence bitmap, parameters in native declaration order. -/
def otOperationalDatasetComponents.new_bitfield_1
    (activeTimestampPresent pendingTimestampPresent networkKeyPresent
     networkNamePresent extendedPanIdPresent meshLocalPfxPresent
     delayPresent panIdPresent channelPresent pskcPresent
     securityPolicyPresent channelMaskPresent : Bool) :
    otOperationalDatasetComponentsBitfield :=
  ⟨activeTimestampPresent, pendingTimestampPresent, networkKeyPresent,
   networkNamePresent, extendedPanIdPresent, meshLocalPfxPresent,
   delayPresent, panIdPresent, channelPresent, pskcPresent,
   securityPolicyPresent, channelMaskPresent⟩

/-- Generated read accessor mIsActiveTimestampPresent. -/
def otOperationalDatasetComponents.mIsActiveTimestampPresent
    (c : otOperationalDatasetComponents) : Bool :=
  c.bitfield_1.activeTimestampPresent

/-- Generated read accessor mIsPendingTimestampPresent. -/
def otOperationalDatasetComponents.mIsPendingTimestampPresent
    (c : otOperationalDatasetComponents) : Bool :=
  c.bitfield_1.pendingTimestampPresent

/-- Generated read accessor mIsNetworkKeyPresent. -/
def otOperationalDatasetComponents.mIsNetworkKeyPresent
    (c : otOperationalDatasetComponents) : Bool :=
  c.bitfield_1.networkKeyPresent

/-- Generated read accessor mIsNetworkNamePresent. -/
def otOperationalDatasetComponents.mIsNetworkNamePresent
    (c : otOperationalDatasetComponents) : Bool :=
  c.bitfield_1.networkNamePresent

/-- Generated read accessor mIsExtendedPanIdPresent. -/
def otOperationalDatasetComponents.mIsExtendedPanIdPresent
    (c : otOperationalDatasetComponents) : Bool :=
  c.bitfield_1.extendedPanIdPresent

/-- Generated read accessor for the mesh-local-prefix presence bit. -/
def otOperationalDatasetComponents.mIsMeshLocalPfxPresent
    (c : otOperationalDatasetComponents) : Bool :=
  c.bitfield_1.meshLocalPfxPresent

/-- Generated read accessor mIsDelayPresent. -/
def otOperationalDatasetComponents.mIsDelayPresent
    (c : otOperationalDatasetComponents) : Bool :=
  c.bitfield_1.delayPresent

/-- Generated read accessor mIsPanIdPresent. -/
def otOperationalDatasetComponents.mIsPanIdPresent
    (c : otOperationalDatasetComponents) : Bool :=
  c.bitfield_1.panIdPresent

/-- Generated read accessor mIsChannelPresent. -/
def otOperationalDatasetComponents.mIsChannelPresent
    (c : otOperationalDatasetComponents) : Bool :=
  c.bitfield_1.channelPresent

/-- Generated read accessor mIsPskcPresent. -/
def otOperationalDatasetComponents.mIsPskcPresent
    (c : otOperationalDatasetComponents) : Bool :=
  c.bitfield_1.pskcPresent

/-- Generated read accessor mIsSecurityPolicyPresent. -/
def otOperationalDatasetComponents.mIsSecurityPolicyPresent
    (c : otOperationalDatasetComponents) : Bool :=
  c.bitfield_1.securityPolicyPresent

/-- Generated read accessor mIsChannelMaskPresent. -/
def otOperationalDatasetComponents.mIsChannelMaskPresent
    (c : otOperationalDatasetComponents) : Bool :=
  c.bitfield_1.channelMaskPresent

/-- Native fixed-layout otOperationalDataset. The source field
mMeshLocalPrefix is rendered here as mMeshLocalPfx (identifier shortened
only). mNetworkName is the 17-byte null-terminated [i8; 17] buffer. -/
structure otOperationalDataset where
  mActiveTimestamp : otTimestamp
  mPendingTimestamp : otTimestamp
  mNetworkKey : Bytes
  mNetworkName : Bytes
  mExtendedPanId : Bytes
  mMeshLocalPfx : Bytes
  mDelay : Nat
  mPanId : Nat
  mChannel : Nat
  mPskc : Bytes
  mSecurityPolicy : otSecurityPolicy
  mChannelMask : Nat
  mComponents : otOperationalDatasetComponents
deriving DecidableEq, Repr

/-- Marshalling of the network name into the native [i8; 17] buffer
(set_active_dataset: `raw[..network_name.len()].copy_from_slice(...)`).
A heapless::String<16> holds at most 16 bytes, so the copy into the
pre-zeroed 17-byte buffer is in bounds and the tail stays zero. -/
def marshalName (name : Bytes) : Bytes :=
  name ++ List.replicate (17 - name.length) 0

/-- The security-policy marshalling inside set_active_dataset
(lines 414-432): rotation time copied, then the nine flags and the
version threshold passed positionally to the native bit-field
constructor in exactly the source's argument order. -/
def marshal_security_policy (sp : SecurityPolicy) : otSecurityPolicy :=
  { mRotationTime := sp.rotation_time
    bitfield_1 := otSecurityPolicy.new_bitfield_1
      sp.obtain_network_key_enabled
      sp.native_commissioning_enabled
      sp.routers_enabled
      sp.external_commissioning_enabled
      sp.commercial_commissioning_enabled
      sp.autonomous_enrollment_enabled
      sp.network_key_provisioning_enabled
      sp.toble_link_enabled
      sp.non_ccm_routers_enabled
      sp.version_threshold_for_routing }

/-- The pure marshalling part of OpenThread::set_active_dataset
(lines 300-455): builds the pre-zeroed native dataset, copies each
present field into its slot in source order (note the source's pending
branch writes the value into mActiveTimestamp), and finally assembles
the presence bitmap from the twelve per-field presence booleans; the
result is what the engine receives via otDatasetSetActive. -/
def set_active_dataset_marshal (dataset : OperationalDataset) : otOperationalDataset :=
  let raw0 : otOperationalDataset :=
    { mActiveTimestamp := ⟨0, 0, false⟩
      mPendingTimestamp := ⟨0, 0, false⟩
      mNetworkKey := List.replicate 16 0
      mNetworkName := List.replicate 17 0
      mExtendedPanId := List.replicate 8 0
      mMeshLocalPfx := List.replicate 8 0
      mDelay := 0
      mPanId := 0
      mChannel := 0
      mPskc := List.replicate 16 0
      mSecurityPolicy :=
        { mRotationTime := 0
          bitfield_1 := otSecurityPolicy.new_bitfield_1
            false false false false false false false false false 0 }
      mChannelMask := 0
      mComponents :=
        { bitfield_1 := otOperationalDatasetComponents.new_bitfield_1
            true false true true true false false true true false false false } }
  let raw1 := match dataset.active_timestamp with
    | some t => { raw0 with mActiveTimestamp := ⟨t.seconds, t.ticks, t.authoritative⟩ }
    | none => raw0
  let raw2 := match dataset.pending_timestamp with
    | some t => { raw1 with mActiveTimestamp := ⟨t.seconds, t.ticks, t.authoritative⟩ }
    | none => raw1
  let raw3 := match dataset.network_key with
    | some k => { raw2 with mNetworkKey := k }
    | none => raw2
  let raw4 := match dataset.network_name with
    | some n => { raw3 with mNetworkName := marshalName n }
    | none => raw3
  let raw5 := match dataset.extended_pan_id with
    | some e => { raw4 with mExtendedPanId := e }
    | none => raw4
  let raw6 := match dataset.mesh_local_pfx with
    | some m => { raw5 with mMeshLocalPfx := m }
    | none => raw5
  let raw7 := match dataset.delay with
    | some d => { raw6 with mDelay := d }
    | none => raw6
  let raw8 := match dataset.pan_id with
    | some p => { raw7 with mPanId := p }
    | none => raw7
  let raw9 := match dataset.channel with
    | some c => { raw8 with mChannel := c }
    | none => raw8
  let raw10 := match dataset.pskc with
    | some p => { raw9 with mPskc := p }
    | none => raw9
  let raw11 := match dataset.security_policy with
    | some sp => { raw10 with mSecurityPolicy := marshal_security_policy sp }
    | none => raw10
  let raw12 := match dataset.channel_mask with
    | some cm => { raw11 with mChannelMask := cm }
    | none => raw11
  { raw12 with mComponents :=
      { bitfield_1 := otOperationalDatasetComponents.new_bitfield_1
          dataset.active_timestamp.isSome
          dataset.pending_timestamp.isSome
          dataset.network_key.isSome
          dataset.network_name.isSome
          dataset.extended_pan_id.isSome
          dataset.mesh_local_pfx.isSome
          dataset.delay.isSome
          dataset.pan_id.isSome
          dataset.channel.isSome
          dataset.pskc.isSome
          dataset.security_policy.isSome
          dataset.channel_mask.isSome } }

/-- Continuation byte check for UTF-8 validation (0x80..0xBF). -/
def utf8Cont (b : Nat) : Bool := 128 ≤ b && b ≤ 191

/-- Validity of a byte sequence as UTF-8, as checked by Rust's
core::str::from_utf8 (rejecting overlong encodings, surrogates and
values beyond U+10FFFF). -/
def isValidUtf8 : Bytes → Bool
  | [] => true
  | b :: t =>
    if b ≤ 127 then isValidUtf8 t
    else if 194 ≤ b && b ≤ 223 then
      match t with
      | b2 :: t2 => utf8Cont b2 && isValidUtf8 t2
      | [] => false
    else if b = 224 then
      match t with
      | b2 :: b3 :: t3 => (160 ≤ b2 && b2 ≤ 191) && utf8Cont b3 && isValidUtf8 t3
      | _ => false
    else if 225 ≤ b && b ≤ 236 then
      match t with
      | b2 :: b3 :: t3 => utf8Cont b2 && utf8Cont b3 && isValidUtf8 t3
      | _ => false
    else if b = 237 then
      match t with
      | b2 :: b3 :: t3 => (128 ≤ b2 && b2 ≤ 159) && utf8Cont b3 && isValidUtf8 t3
      | _ => false
    else if 238 ≤ b && b ≤ 239 then
      match t with
      | b2 :: b3 :: t3 => utf8Cont b2 && utf8Cont b3 && isValidUtf8 t3
      | _ => false
    else if b = 240 then
      match t with
      | b2 :: b3 :: b4 :: t4 =>
        (144 ≤ b2 && b2 ≤ 191) && utf8Cont b3 && utf8Cont b4 && isValidUtf8 t4
      | _ => false
    else if 241 ≤ b && b ≤ 243 then
      match t with
      | b2 :: b3 :: b4 :: t4 =>
        utf8Cont b2 && utf8Cont b3 && utf8Cont b4 && isValidUtf8 t4
      | _ => false
    else if b = 244 then
      match t with
      | b2 :: b3 :: b4 :: t4 =>
        (128 ≤ b2 && b2 ≤ 143) && utf8Cont b3 && utf8Cont b4 && isValidUtf8 t4
      | _ => false
    else false

/-- dataset_from_raw_dataset (lines 674-727): reconstructs the
optional-field dataset from the native layout. Every field is wrapped in
Some unconditionally; the network name takes the first 15 bytes of the
17-byte native buffer verbatim and is Some exactly when those bytes are
valid UTF-8. -/
def dataset_from_raw_dataset (raw : otOperationalDataset) : OperationalDataset :=
  { active_timestamp := some ⟨raw.mActiveTimestamp.mSeconds,
      raw.mActiveTimestamp.mTicks, raw.mActiveTimestamp.mAuthoritative⟩
    channel := some raw.mChannel
    channel_mask := some raw.mChannelMask
    delay := some raw.mDelay
    extended_pan_id := some raw.mExtendedPanId
    mesh_local_pfx := some raw.mMeshLocalPfx
    network_key := some raw.mNetworkKey
    network_name :=
      if isValidUtf8 (raw.mNetworkName.take 15) then some (raw.mNetworkName.take 15)
      else none
    pan_id := some raw.mPanId
    pending_timestamp := some ⟨raw.mPendingTimestamp.mSeconds,
      raw.mPendingTimestamp.mTicks, raw.mPendingTimestamp.mAuthoritative⟩
    pskc := some raw.mPskc
    security_policy := some
      { rotation_time := raw.mSecurityPolicy.mRotationTime
        autonomous_enrollment_enabled := raw.mSecurityPolicy.mAutonomousEnrollmentEnabled
        commercial_commissioning_enabled := raw.mSecurityPolicy.mCommercialCommissioningEnabled
        external_commissioning_enabled := raw.mSecurityPolicy.mExternalCommissioningEnabled
        native_commissioning_enabled := raw.mSecurityPolicy.mNativeCommissioningEnabled
        network_key_provisioning_enabled := raw.mSecurityPolicy.mNetworkKeyProvisioningEnabled
        non_ccm_routers_enabled := raw.mSecurityPolicy.mNonCcmRoutersEnabled
        obtain_network_key_enabled := raw.mSecurityPolicy.mObtainNetworkKeyEnabled
        routers_enabled := raw.mSecurityPolicy.mRoutersEnabled
        toble_link_enabled := raw.mSecurityPolicy.mTobleLinkEnabled
        version_threshold_for_routing := raw.mSecurityPolicy.mVersionThresholdForRouting } }

/-- The security-policy unmarshalling inside dataset_from_raw_dataset
(lines 708-724), as a standalone map for the round-trip results. -/
def unmarshal_security_policy (s : otSecurityPolicy) : SecurityPolicy :=
  { rotation_time := s.mRotationTime
    autonomous_enrollment_enabled := s.mAutonomousEnrollmentEnabled
    commercial_commissioning_enabled := s.mCommercialCommissioningEnabled
    external_commissioning_enabled := s.mExternalCommissioningEnabled
    native_commissioning_enabled := s.mNativeCommissioningEnabled
    network_key_provisioning_enabled := s.mNetworkKeyProvisioningEnabled
    non_ccm_routers_enabled := s.mNonCcmRoutersEnabled
    obtain_network_key_enabled := s.mObtainNetworkKeyEnabled
    routers_enabled := s.mRoutersEnabled
    toble_link_enabled := s.mTobleLinkEnabled
    version_threshold_for_routing := s.mVersionThresholdForRouting }

/-- The nine boolean sub-flags of SecurityPolicy, as marshalled by
set_active_dataset and read back by dataset_from_raw_dataset. -/
def securityPolicyBoolFlags : List (SecurityPolicy → Bool) :=
  [SecurityPolicy.autonomous_enrollment_enabled,
   SecurityPolicy.commercial_commissioning_enabled,
   SecurityPolicy.external_commissioning_enabled,
   SecurityPolicy.native_commissioning_enabled,
   SecurityPolicy.network_key_provisioning_enabled,
   SecurityPolicy.non_ccm_routers_enabled,
   SecurityPolicy.obtain_network_key_enabled,
   SecurityPolicy.routers_enabled,
   SecurityPolicy.toble_link_enabled]

/-- The ChangedFlags bit constants (bitflags block, lines 90-157). -/
def ChangedFlags.Ipv6AddressAdded : Nat := 1

/-- IPv6 address was removed. -/
def ChangedFlags.Ipv6AddressRemoved : Nat := 2

/-- Role changed. -/
def ChangedFlags.ThreadRoleChanged : Nat := 4

/-- Link-local address changed. -/
def ChangedFlags.ThreadLlAddressChanged : Nat := 8

/-- Mesh-local address changed. -/
def ChangedFlags.ThreadMeshLocalAddressChanged : Nat := 16

/-- RLOC added. -/
def ChangedFlags.ThreadRlocAdded : Nat := 32

/-- RLOC removed. -/
def ChangedFlags.ThreadRlocRemoved : Nat := 64

/-- Partition ID changed. -/
def ChangedFlags.ThreadPartitionIdChanged : Nat := 128

/-- Key sequence changed. -/
def ChangedFlags.ThreadKeySequenceChanged : Nat := 256

/-- Thread Network Data changed. -/
def ChangedFlags.ThreadNetworkDataChanged : Nat := 512

/-- Child added. -/
def ChangedFlags.ThreadChildAdded : Nat := 1024

/-- Child removed. -/
def ChangedFlags.ThreadChildRemoved : Nat := 2048

/-- Multicast subscribed. -/
def ChangedFlags.Ipv6MulticastSubscribed : Nat := 4096

/-- Multicast unsubscribed. -/
def ChangedFlags.Ipv6MulticastUnsubscribed : Nat := 8192

/-- Network channel changed. -/
def ChangedFlags.ThreadNetworkChannelChanged : Nat := 16384

/-- PAN id changed. -/
def ChangedFlags.ThreadPanIdChanged : Nat := 32768

/-- Network name changed. -/
def ChangedFlags.ThreadNetworkNameChanged : Nat := 65536

/-- Extended PAN id changed. -/
def ChangedFlags.ThreadExtendedPanIdChanged : Nat := 131072

/-- Network key changed. -/
def ChangedFlags.ThreadNetworkKeyChanged : Nat := 262144

/-- PSKc changed. -/
def ChangedFlags.ThreadPskcChanged : Nat := 524288

/-- Security policy changed. -/
def ChangedFlags.ThreadSecurityPolicyChanged : Nat := 1048576

/-- Channel-manager pending channel changed. -/
def ChangedFlags.ChannelManagerNewChannelChanged : Nat := 2097152

/-- Supported channel mask changed. -/
def ChangedFlags.SupportedChannelMaskChanged : Nat := 4194304

/-- Commissioner state changed. -/
def ChangedFlags.CommissionerStateChanged : Nat := 8388608

/-- Network interface state changed. -/
def ChangedFlags.ThreadNetworkInterfaceStateChanged : Nat := 16777216

/-- Backbone router state changed. -/
def ChangedFlags.ThreadBackboneRouterStateChanged : Nat := 33554432

/-- Local backbone router configuration changed. -/
def ChangedFlags.ThreadBackboneRouterLocalChanged : Nat := 67108864

/-- Joiner state changed. -/
def ChangedFlags.JoinerStateChanged : Nat := 134217728

/-- Active dataset changed. -/
def ChangedFlags.ActiveDatasetChanged : Nat := 268435456

/-- Pending dataset changed. -/
def ChangedFlags.PendingDatasetChanged : Nat := 536870912

/-- All declared ChangedFlags bits. -/
def ChangedFlags.allFlags : List Nat :=
  [ChangedFlags.Ipv6AddressAdded, ChangedFlags.Ipv6AddressRemoved,
   ChangedFlags.ThreadRoleChanged, ChangedFlags.ThreadLlAddressChanged,
   ChangedFlags.ThreadMeshLocalAddressChanged, ChangedFlags.ThreadRlocAdded,
   ChangedFlags.ThreadRlocRemoved, ChangedFlags.ThreadPartitionIdChanged,
   ChangedFlags.ThreadKeySequenceChanged, ChangedFlags.ThreadNetworkDataChanged,
   ChangedFlags.ThreadChildAdded, ChangedFlags.ThreadChildRemoved,
   ChangedFlags.Ipv6MulticastSubscribed, ChangedFlags.Ipv6MulticastUnsubscribed,
   ChangedFlags.ThreadNetworkChannelChanged, ChangedFlags.ThreadPanIdChanged,
   ChangedFlags.ThreadNetworkNameChanged, ChangedFlags.ThreadExtendedPanIdChanged,
   ChangedFlags.ThreadNetworkKeyChanged, ChangedFlags.ThreadPskcChanged,
   ChangedFlags.ThreadSecurityPolicyChanged, ChangedFlags.ChannelManagerNewChannelChanged,
   ChangedFlags.SupportedChannelMaskChanged, ChangedFlags.CommissionerStateChanged,
   ChangedFlags.ThreadNetworkInterfaceStateChanged, ChangedFlags.ThreadBackboneRouterStateChanged,
   ChangedFlags.ThreadBackboneRouterLocalChanged, ChangedFlags.JoinerStateChanged,
   ChangedFlags.ActiveDatasetChanged, ChangedFlags.PendingDatasetChanged]

/-- Union of all declared flag bits (bitflags' internal full mask). -/
def ChangedFlags.knownBits : Nat :=
  ChangedFlags.allFlags.foldr (fun a b => a ||| b) 0

/-- bitflags' `ChangedFlags::from_bits`: Some exactly when no bit outside
the declared set is present. -/
def ChangedFlags.from_bits (bits : Nat) : Option Nat :=
  if bits &&& ChangedFlags.knownBits = bits then some bits else none

/-- The native state-change callback `change_callback` (lines 729-742):
under the critical section, if a user callback is registered it is called
with `ChangedFlags::from_bits(flags).unwrap()`. The result is the list of
flag words handed to the user callback; `none` models the `unwrap` panic
on an unrecognized bit. -/
def change_callback (flags : Nat) (registered : Bool) : Option (List Nat) :=
  if registered then
    match ChangedFlags.from_bits flags with
    | some f => some [f]
    | none => none
  else
    some []

/-- Outcome of UdpSocket::send after the message-info setup: whether the
call succeeded and whether otMessageFree was invoked on the allocated
message. -/
structure SendOutcome where
  result : Except Error Unit
  freedMessage : Bool
deriving Repr

/-- UdpSocket::send (lines 874-926) with the engine's responses as
oracles: `allocSucceeds` is whether otUdpNewMessage returns non-null,
`appendStatus` the otMessageAppend status and `sendStatus` the otUdpSend
status. On a null message the error is returned at once; a nonzero append
status is propagated by the `checked!(..)?` early return with no free; a
nonzero send status frees the message before returning the error. -/
def udp_send (allocSucceeds : Bool) (appendStatus sendStatus : Nat) : SendOutcome :=
  if allocSucceeds = false then
    ⟨Except.error (Error.InternalError 0), false⟩
  else
    match checked appendStatus with
    | Except.error e => ⟨Except.error e, false⟩
    | Except.ok _ =>
      if sendStatus ≠ OT_ERROR_NONE then
        ⟨Except.error (Error.InternalError sendStatus), true⟩
      else
        ⟨Except.ok (), false⟩

/-- The mutable per-socket state of UdpSocket: buffered receive length,
recorded peer address (16 bytes) and port, and the fixed receive buffer. -/
structure UdpSocketState where
  receive_len : Nat
  receive_from : Bytes
  receive_port : Nat
  receive_buffer : Bytes
deriving DecidableEq, Repr

/-- Ipv6Addr::UNSPECIFIED (all-zero address). -/
def Ipv6Unspecified : Bytes := List.replicate 16 0

/-- UdpSocket::receive (lines 856-871): under a critical section, when
nothing is buffered return length 0 with the unspecified address and port
0 and leave everything untouched; otherwise reset the buffered length,
copy the first `len` buffered bytes over the front of the caller's
buffer, and return the length with the recorded peer address and port.
The result carries (length, address, port), the new socket state and the
caller's buffer after the copy; `none` models the panic of
`data[..len].copy_from_slice(..)` when a slice bound is exceeded. -/
def udp_receive (s : UdpSocketState) (data : Bytes) :
    Option ((Nat × Bytes × Nat) × UdpSocketState × Bytes) :=
  if s.receive_len = 0 then
    some ((0, Ipv6Unspecified, 0), s, data)
  else
    if s.receive_len ≤ data.length ∧ s.receive_len ≤ s.receive_buffer.length then
      some ((s.receive_len, s.receive_from, s.receive_port),
            { s with receive_len := 0 },
            s.receive_buffer.take s.receive_len ++ data.drop s.receive_len)
    else
      none

/-- One raw received frame from the radio driver (esp-ieee802154
RawReceived): a length-prefixed byte buffer plus the channel. -/
structure RawReceived where
  data : Bytes
  channel : Nat
deriving DecidableEq, Repr

/-- The engine's otRadioFrame as filled by process(): the 127-byte scratch
PSDU buffer content, frame length, channel, RSSI (signed), LQI and the
microsecond timestamp. -/
structure otRadioFrame where
  mPsdu : Bytes
  mLength : Nat
  mChannel : Nat
  mRssi : Int
  mLqi : Nat
  mTimestamp : Nat
deriving DecidableEq, Repr

/-- One invocation of otPlatRadioReceiveDone: the frame and the status. -/
structure ReceiveDoneCall where
  frame : otRadioFrame
  status : Nat
deriving DecidableEq, Repr

/-- Reinterpretation of a byte as a signed 8-bit value (`as i8`). -/
def toInt8 (b : Nat) : Int :=
  if b ≤ 127 then (b : Int) else (b : Int) - 256

/-- The per-frame body of OpenThread::process (lines 580-594). `lqiFn` is
the external esp-ieee802154 `rssi_to_lqi` map, `millis` the timer
adapter's current millisecond count and `scratch` the current content of
the 127-byte static RCV_FRAME_PSDU buffer. The RSSI byte is read at index
`data[0] - 1` (a zero length byte underflows the usize index and panics;
an index or slice out of range also panics — both are `none` here); the
payload `data[1..][..len]` is copied over the first `len` bytes of the
scratch buffer; the assembled frame is handed to otPlatRadioReceiveDone
with status OT_ERROR_NONE. -/
def processFrame (lqiFn : Int → Nat) (millis : Nat) (scratch : Bytes)
    (raw : RawReceived) : Option ReceiveDoneCall :=
  match raw.data.get? 0 with
  | none => none
  | some len =>
    if len = 0 then none
    else
      match raw.data.get? (len - 1) with
      | none => none
      | some rssiByte =>
        if len ≤ 127 ∧ len + 1 ≤ raw.data.length then
          some { frame :=
                   { mPsdu := (raw.data.drop 1).take len ++ scratch.drop len
                     mLength := len
                     mChannel := raw.channel
                     mRssi := toInt8 rssiByte
                     mLqi := lqiFn (toInt8 rssiByte)
                     mTimestamp := millis * 1000 }
                 status := OT_ERROR_NONE }
        else none

/-- Events observable at the engine boundary during one process() call. -/
inductive Event where
  | timerFired : Event
  | frameReceived : ReceiveDoneCall → Event
deriving DecidableEq, Repr

/-- Modelled from the spec: timer::run_if_due (the timer module is not
under the examined source) checks whether the scheduled deadline has
elapsed and, if so, notifies the protocol engine's timer callback once
and reschedules; `timerDue` is that elapsed-deadline check. -/
def run_if_due_events (timerDue : Bool) : List Event :=
  if timerDue then [Event.timerFired] else []

/-- The frame-draining loop of process(): each queued raw frame is
reformatted against the current scratch-buffer content and forwarded; the
scratch buffer then holds that frame's PSDU. A malformed frame panics
(processFrame = none), which aborts the loop with no further events. -/
def drain_frames (lqiFn : Int → Nat) (millis : Nat) :
    Bytes → List RawReceived → List Event
  | _, [] => []
  | scratch, raw :: raws =>
    match processFrame lqiFn millis scratch raw with
    | some call => Event.frameReceived call :: drain_frames lqiFn millis call.frame.mPsdu raws
    | none => []

/-- OpenThread::process (lines 577-597): run due timers first
(timer::run_if_due), then drain and forward every buffered radio frame.
`raws` is the radio driver's queue of buffered frames (the registry must
hold a radio; process unwraps it). -/
def process (lqiFn : Int → Nat) (millis : Nat) (timerDue : Bool)
    (scratch : Bytes) (raws : List RawReceived) : List Event :=
  run_if_due_events timerDue ++ drain_frames lqiFn millis scratch raws

/-- C1: a dataset whose only present field is the pending timestamp is
marshalled by set_active_dataset with the pending value written into the
ACTIVE-timestamp slot, the pending-timestamp slot left at its zeroed
default, and the pending presence bit (but not the active one) set: the
pending timestamp is not copied into the pending-timestamp slot. -/
theorem set_active_dataset_pending_timestamp_slot_bug :
    (set_active_dataset_marshal
        { OperationalDataset.default with pending_timestamp := some ⟨5, 6, true⟩ }).mPendingTimestamp
      = ⟨0, 0, false⟩ ∧
    (set_active_dataset_marshal
        { OperationalDataset.default with pending_timestamp := some ⟨5, 6, true⟩ }).mActiveTimestamp
      = ⟨5, 6, true⟩ ∧
    (set_active_dataset_marshal
        { OperationalDataset.default with pending_timestamp := some ⟨5, 6, true⟩ }).mComponents.mIsPendingTimestampPresent
      = true ∧
    (set_active_dataset_marshal
        { OperationalDataset.default with pending_timestamp := some ⟨5, 6, true⟩ }).mComponents.mIsActiveTimestampPresent
      = false := by
  refine ⟨rfl, rfl, rfl, rfl⟩

/-- C2 counterexample: for the all-absent dataset, marshalling and
unmarshalling back reports the channel (None in the input) as Some 0, so
the presence set is not preserved by the round trip. -/
theorem roundtrip_presence_counterexample :
    OperationalDataset.default.channel = none ∧
    (dataset_from_raw_dataset
        (set_active_dataset_marshal OperationalDataset.default)).channel = some 0 := by
  refine ⟨rfl, rfl⟩

/-- C2 amended: for every dataset value (with the heapless::String<16>
bound on the name), the round trip through the native layout reports all
eleven non-name fields as present regardless of the input's presence set,
and reports the network name as present exactly when the first 15 bytes
of the marshalled native name buffer are valid UTF-8. -/
theorem roundtrip_reports_all_fields_present (v : OperationalDataset)
    (hname : (v.network_name.getD []).length ≤ 16) :
    (dataset_from_raw_dataset (set_active_dataset_marshal v)).active_timestamp.isSome = true ∧
    (dataset_from_raw_dataset (set_active_dataset_marshal v)).pending_timestamp.isSome = true ∧
    (dataset_from_raw_dataset (set_active_dataset_marshal v)).network_key.isSome = true ∧
    (dataset_from_raw_dataset (set_active_dataset_marshal v)).extended_pan_id.isSome = true ∧
    (dataset_from_raw_dataset (set_active_dataset_marshal v)).mesh_local_pfx.isSome = true ∧
    (dataset_from_raw_dataset (set_active_dataset_marshal v)).delay.isSome = true ∧
    (dataset_from_raw_dataset (set_active_dataset_marshal v)).pan_id.isSome = true ∧
    (dataset_from_raw_dataset (set_active_dataset_marshal v)).channel.isSome = true ∧
    (dataset_from_raw_dataset (set_active_dataset_marshal v)).pskc.isSome = true ∧
    (dataset_from_raw_dataset (set_active_dataset_marshal v)).security_policy.isSome = true ∧
    (dataset_from_raw_dataset (set_active_dataset_marshal v)).channel_mask.isSome = true ∧
    (dataset_from_raw_dataset (set_active_dataset_marshal v)).network_name.isSome
      = isValidUtf8 ((set_active_dataset_marshal v).mNetworkName.take 15) := by
  refine ⟨rfl, rfl, rfl, rfl, rfl, rfl, rfl, rfl, rfl, rfl, rfl, ?_⟩
  by_cases hc : isValidUtf8 ((set_active_dataset_marshal v).mNetworkName.take 15)
  · simp [dataset_from_raw_dataset, hc]
  · simp [dataset_from_raw_dataset, hc]

/-- Witness for the amended C2 theorem at a concrete sparsely populated
dataset (only channel present). -/
theorem roundtrip_reports_all_fields_present_witness :
    (dataset_from_raw_dataset
        (set_active_dataset_marshal
          { OperationalDataset.default with channel := some 15 })).channel.isSome = true ∧
    (dataset_from_raw_dataset
        (set_active_dataset_marshal
          { OperationalDataset.default with channel := some 15 })).network_name.isSome
      = isValidUtf8 ((set_active_dataset_marshal
          { OperationalDataset.default with channel := some 15 }).mNetworkName.take 15) :=
  ⟨(roundtrip_reports_all_fields_present
      { OperationalDataset.default with channel := some 15 } (by decide)).2.2.2.2.2.2.2.1,
   (roundtrip_reports_all_fields_present
      { OperationalDataset.default with channel := some 15 } (by decide)).2.2.2.2.2.2.2.2.2.2.2⟩

/-- C3: when message allocation succeeds and otMessageAppend fails with
status 1, UdpSocket::send propagates InternalError(1) without calling
otMessageFree on the allocated message (the early `?` return skips the
cleanup), leaking it; only the otUdpSend failure path frees. -/
theorem send_append_failure_does_not_free :
    udp_send true 1 0
      = ⟨Except.error (Error.InternalError 1), false⟩ ∧
    udp_send true 0 7
      = ⟨Except.error (Error.InternalError 7), true⟩ := by
  refine ⟨rfl, rfl⟩

/-- C5: for a native dataset whose name buffer holds the two-character
null-terminated name ab, dataset_from_raw_dataset exposes the first 15
buffer bytes verbatim — the name followed by 13 trailing NUL padding
bytes — rather than the padding-stripped two-byte name. -/
theorem network_name_trailing_padding_not_stripped :
    (dataset_from_raw_dataset
        { mActiveTimestamp := ⟨0, 0, false⟩
          mPendingTimestamp := ⟨0, 0, false⟩
          mNetworkKey := List.replicate 16 0
          mNetworkName := [97, 98] ++ List.replicate 15 0
          mExtendedPanId := List.replicate 8 0
          mMeshLocalPfx := List.replicate 8 0
          mDelay := 0
          mPanId := 0
          mChannel := 0
          mPskc := List.replicate 16 0
          mSecurityPolicy :=
            { mRotationTime := 0
              bitfield_1 := otSecurityPolicy.new_bitfield_1
                false false false false false false false false false 0 }
          mChannelMask := 0
          mComponents :=
            { bitfield_1 := otOperationalDatasetComponents.new_bitfield_1
                true false true true true false false true true false false false } }).network_name
      = some ([97, 98] ++ List.replicate 13 0) ∧
    some ([97, 98] ++ List.replicate 13 0) ≠ some ([97, 98] : Bytes) := by
  refine ⟨by decide, by decide⟩

/-- C8: with a user callback registered, the native change_callback for
the flag word ThreadRoleChanged bitor ThreadNetworkDataChanged decodes it
successfully and invokes the user callback exactly once, with a flags
value equal to 2 to the 2nd plus 2 to the 9th — exactly those two bits
set and no others. -/
theorem change_callback_role_and_netdata_flags :
    change_callback
        (ChangedFlags.ThreadRoleChanged ||| ChangedFlags.ThreadNetworkDataChanged) true
      = some [ChangedFlags.ThreadRoleChanged ||| ChangedFlags.ThreadNetworkDataChanged] ∧
    ChangedFlags.ThreadRoleChanged ||| ChangedFlags.ThreadNetworkDataChanged = 2 ^ 2 + 2 ^ 9 := by
  refine ⟨by decide, by decide⟩

/-- C9 counterexample: the SecurityPolicy marshalled by set_active_dataset
carries nine boolean sub-flags, not ten, so the claim's quantification
over ten boolean sub-flags does not match the code. -/
theorem security_policy_has_nine_bool_flags :
    securityPolicyBoolFlags.length = 9 ∧ securityPolicyBoolFlags.length ≠ 10 := by
  refine ⟨rfl, by decide⟩

/-- C9 amended: for every SecurityPolicy (hence in particular for each of
the nine boolean sub-flags set individually), marshalling through
set_active_dataset's native bit-field constructor and reading back through
dataset_from_raw_dataset's named accessors recovers exactly the same
policy — every flag, the rotation time and the version threshold — so the
constructor argument order aligns bit-for-bit with the read accessors. -/
theorem security_policy_roundtrip (sp : SecurityPolicy) :
    (dataset_from_raw_dataset
        (set_active_dataset_marshal
          { OperationalDataset.default with security_policy := some sp })).security_policy
      = some sp := by
  cases sp
  rfl

/-- C4: for a drained frame whose length byte is in range, the frame
handed to otPlatRadioReceiveDone carries the RSSI read from the raw
buffer at index length-byte minus one reinterpreted as a signed 8-bit
value, the LQI rssi_to_lqi of that RSSI, the payload bytes copied over
the front of the scratch PSDU buffer, the channel and the
millisecond-times-1000 timestamp, with the fixed success status. -/
theorem processFrame_populates_frame_fields (lqiFn : Int → Nat)
    (millis : Nat) (scratch : Bytes) (ch b : Nat) (rest : Bytes)
    (h1 : 1 ≤ b) (h2 : b ≤ 127) (h3 : b ≤ rest.length) :
    processFrame lqiFn millis scratch ⟨b :: rest, ch⟩ =
      some { frame :=
               { mPsdu := rest.take b ++ scratch.drop b
                 mLength := b
                 mChannel := ch
                 mRssi := toInt8 ((b :: rest).getD (b - 1) 0)
                 mLqi := lqiFn (toInt8 ((b :: rest).getD (b - 1) 0))
                 mTimestamp := millis * 1000 }
             status := OT_ERROR_NONE } := by
  have hb0 : ¬ b = 0 := by omega
  have hlt : b - 1 < (b :: rest).length := by
    simp only [List.length_cons]
    omega
  have hv := List.get?_eq_get hlt
  have hgd : (b :: rest).getD (b - 1) 0 = (b :: rest).get ⟨b - 1, hlt⟩ := by
    simp [List.getD_eq_getElem?_getD, ← List.get?_eq_getElem?, hv]
  have hcond : b ≤ 127 ∧ b + 1 ≤ (b :: rest).length := by
    simp only [List.length_cons]
    omega
  simp only [processFrame, List.get?_cons_zero, hb0, if_false, hv, hgd,
    List.drop_succ_cons, List.drop_zero]
  rw [if_pos hcond]

/-- Witness for C4 at a concrete three-byte raw frame. -/
theorem processFrame_populates_frame_fields_witness :
    processFrame (fun _ => 7) 3 (List.replicate 127 3) ⟨[2, 10, 200], 15⟩ =
      some { frame :=
               { mPsdu := [10, 200] ++ List.replicate 125 3
                 mLength := 2
                 mChannel := 15
                 mRssi := 10
                 mLqi := 7
                 mTimestamp := 3000 }
             status := 0 } :=
  processFrame_populates_frame_fields (fun _ => 7) 3 (List.replicate 127 3) 15 2 [10, 200]
    (by decide) (by decide) (by decide)

/-- C6: receive on a socket with buffered length zero returns length 0
with the unspecified address and port 0 and leaves the socket and the
caller's buffer untouched; with a buffered datagram of length n greater
than zero (and in range of both buffers), receive copies the n buffered
bytes over the front of the caller's buffer, returns n with the recorded
sender address and port, and resets the buffered length to zero. -/
theorem udp_receive_spec (s : UdpSocketState) (data : Bytes) :
    (s.receive_len = 0 →
      udp_receive s data = some ((0, Ipv6Unspecified, 0), s, data)) ∧
    (0 < s.receive_len → s.receive_len ≤ data.length →
      s.receive_len ≤ s.receive_buffer.length →
      udp_receive s data =
        some ((s.receive_len, s.receive_from, s.receive_port),
              { s with receive_len := 0 },
              s.receive_buffer.take s.receive_len ++ data.drop s.receive_len)) := by
  constructor
  · intro h0
    simp [udp_receive, h0]
  · intro h1 h2 h3
    have hne : ¬ s.receive_len = 0 := by omega
    simp [udp_receive, hne, h2, h3]

/-- Witness for C6 at a concrete socket state with a buffered datagram. -/
theorem udp_receive_spec_witness :
    udp_receive ⟨2, List.replicate 16 4, 7, [10, 11, 12]⟩ [1, 1, 1] =
      some ((2, List.replicate 16 4, 7),
            ⟨0, List.replicate 16 4, 7, [10, 11, 12]⟩,
            [10, 11, 1]) :=
  (udp_receive_spec ⟨2, List.replicate 16 4, 7, [10, 11, 12]⟩ [1, 1, 1]).2
    (by decide) (by decide) (by decide)

/-- Every event emitted by the frame-draining loop is a frame-received
notification. -/
theorem drain_frames_only_frames (lqiFn : Int → Nat) (millis : Nat) :
    ∀ (scratch : Bytes) (raws : List RawReceived) (e : Event),
      e ∈ drain_frames lqiFn millis scratch raws → ∃ c, e = Event.frameReceived c := by
  intro scratch raws
  induction raws generalizing scratch with
  | nil =>
    intro e h
    simp [drain_frames] at h
  | cons raw raws ih =>
    intro e h
    simp only [drain_frames] at h
    cases hp : processFrame lqiFn millis scratch raw with
    | none =>
      rw [hp] at h
      simp at h
    | some call =>
      rw [hp] at h
      rcases List.mem_cons.mp h with h1 | h2
      · exact ⟨call, h1⟩
      · exact ih call.frame.mPsdu e h2

/-- C7: within one process() invocation, every timer-fired event in the
emitted engine-boundary event sequence comes strictly before every
frame-received event: due timers are run before any buffered frame is
forwarded. -/
theorem process_timer_events_precede_frame_events (lqiFn : Int → Nat)
    (millis : Nat) (timerDue : Bool) (scratch : Bytes)
    (raws : List RawReceived) (i j : Nat) (c : ReceiveDoneCall)
    (hi : (process lqiFn millis timerDue scratch raws).get? i = some Event.timerFired)
    (hj : (process lqiFn millis timerDue scratch raws).get? j
            = some (Event.frameReceived c)) :
    i < j := by
  simp only [process] at hi hj
  have hiA : i < (run_if_due_events timerDue).length := by
    by_contra hcon
    push_neg at hcon
    rw [List.get?_append_right hcon] at hi
    obtain ⟨c2, hc2⟩ :=
      drain_frames_only_frames lqiFn millis scratch raws _ (List.get?_mem hi)
    exact Event.noConfusion hc2
  have hjA : (run_if_due_events timerDue).length ≤ j := by
    by_contra hcon
    push_neg at hcon
    rw [List.get?_append hcon] at hj
    cases timerDue with
    | false => simp [run_if_due_events] at hcon
    | true =>
      have hj0 : j = 0 := by
        simp only [run_if_due_events, if_true, List.length_cons, List.length_nil] at hcon
        omega
      subst hj0
      simp [run_if_due_events] at hj
  omega

/-- Witness for C7: a process() call with a due timer and one buffered
frame emits the timer event at position 0 and the frame event at
position 1, and the theorem instantiates to 0 less than 1. -/
theorem process_timer_events_precede_frame_events_witness :
    (process (fun _ => 7) 3 true (List.replicate 127 3) [⟨[2, 10, 200], 15⟩]).get? 0
        = some Event.timerFired ∧
    (0 : Nat) < 1 :=
  ⟨by decide,
   process_timer_events_precede_frame_events (fun _ => 7) 3 true (List.replicate 127 3)
     [⟨[2, 10, 200], 15⟩] 0 1
     ⟨⟨[10, 200] ++ List.replicate 125 3, 2, 15, 10, 7, 3000⟩, 0⟩
     (by decide) (by decide)⟩

/-- C10: on a raw frame buffer of the driver's fixed 129-byte size, the
per-frame handling of process() is defined (reaches the engine
notification instead of panicking on the usize underflow of the RSSI
index or an out-of-range slice) exactly when the frame's first byte, the
length byte, is at least 1 and at most 127. -/
theorem processFrame_defined_iff_length_byte_in_range (lqiFn : Int → Nat)
    (millis : Nat) (scratch : Bytes) (ch b : Nat) (rest : Bytes)
    (h : (b :: rest).length = 129) :
    (processFrame lqiFn millis scratch ⟨b :: rest, ch⟩).isSome = true ↔
      (1 ≤ b ∧ b ≤ 127) := by
  have hr : rest.length = 128 := by
    simp only [List.length_cons] at h
    omega
  constructor
  · intro hsome
    by_contra hcon
    simp only [processFrame, List.get?_cons_zero] at hsome
    by_cases hb0 : b = 0
    · rw [if_pos hb0] at hsome
      simp at hsome
    · rw [if_neg hb0] at hsome
      have hb128 : 128 ≤ b := by
        rcases Decidable.em (b ≤ 127) with hle | hgt
        · exact absurd ⟨by omega, hle⟩ hcon
        · omega
      have hcond : ¬ (b ≤ 127 ∧ b + 1 ≤ (b :: rest).length) := by
        simp only [List.length_cons, hr]
        omega
      cases hg : (b :: rest).get? (b - 1) with
      | none =>
        rw [hg] at hsome
        simp at hsome
      | some v =>
        rw [hg] at hsome
        simp at hsome
        omega
  · rintro ⟨h1, h2⟩
    have hb0 : ¬ b = 0 := by omega
    have hlt : b - 1 < (b :: rest).length := by
      simp only [List.length_cons]
      omega
    have hv := List.get?_eq_get hlt
    have hcond : b ≤ 127 ∧ b + 1 ≤ (b :: rest).length := by
      simp only [List.length_cons]
      omega
    simp only [processFrame, List.get?_cons_zero, hb0, if_false, hv]
    rw [if_pos hcond]
    rfl

set_option maxRecDepth 4000 in
/-- Witness for C10: a 129-byte raw buffer with length byte 5 is handled
(both directions instantiated at concrete frames). -/
theorem processFrame_defined_iff_length_byte_in_range_witness :
    (processFrame (fun _ => 0) 0 (List.replicate 127 0)
        ⟨5 :: List.replicate 128 9, 11⟩).isSome = true :=
  (processFrame_defined_iff_length_byte_in_range (fun _ => 0) 0 (List.replicate 127 0)
      11 5 (List.replicate 128 9) (by simp)).mpr (by decide)

end EspOpenThread
